import Mathlib

/-!
Verification development for the KritaGPT plugin.

The Python sources are shallowly embedded: code strings are `String` /
`List Char`, Python dictionaries used as records become Lean structures,
JSON configuration data becomes an association list over an inductive
`Json` type, and external effects (the CPython compiler, the process of
running generated code, the remote completion endpoint) are passed as
explicit oracle parameters.
-/

/-! ## Basic Python string primitives over `List Char` -/

/-- The backtick character (used by fenced code blocks). -/
def btick : Char := Char.ofNat 96

/-- Python `str.strip` whitespace (ASCII: space, tab, LF, VT, FF, CR). -/
def pyWhite (c : Char) : Bool :=
  c == ' ' || c == '\t' || c == '\n' || c == Char.ofNat 11 || c == Char.ofNat 12 || c == '\r'

/-- `True` iff the string is empty or consists only of whitespace, i.e.
Python `not s or not s.strip()`. -/
def pyAllWhite (s : List Char) : Bool := s.all pyWhite

/-- Python `str.strip()`: remove leading and trailing whitespace. -/
def pyStripL (s : List Char) : List Char :=
  ((s.dropWhile pyWhite).reverse.dropWhile pyWhite).reverse

/-- Python `str.lower()` (ASCII case folding, as used on the code text). -/
def pyLower (s : List Char) : List Char := s.map Char.toLower

/-- `isPrefixL n h` decides whether `n` is a prefix of `h`
(Python `h.startswith(n)`). -/
def isPrefixL : List Char → List Char → Bool
  | [], _ => true
  | _ :: _, [] => false
  | c :: cs, d :: ds => c == d && isPrefixL cs ds

/-- `containsSub hay nee` decides Python `nee in hay` (substring test). -/
def containsSub : List Char → List Char → Bool
  | [], nee => nee.isEmpty
  | c :: t, nee => isPrefixL nee (c :: t) || containsSub t nee

/-- Python `l.split('\n')` on character lists. -/
def splitLines : List Char → List (List Char)
  | [] => [[]]
  | c :: t =>
    if c = '\n' then [] :: splitLines t
    else
      match splitLines t with
      | [] => [[c]]
      | l :: ls => (c :: l) :: ls

/-- Python `'\n'.join(lines)` on character lists. -/
def joinLines : List (List Char) → List Char
  | [] => []
  | [l] => l
  | l :: ls => l ++ '\n' :: joinLines ls

/-- Python slice `l[i:]` with an `Int` index (negative indices count from
the end, exactly as CPython computes the slice start). -/
def pyListFrom (l : List α) (i : Int) : List α :=
  if i < 0 then l.drop ((l.length : Int) + i).toNat else l.drop i.toNat

/-! ## `command_processor.py` — `CommandProcessor` -/

/-- The fixed denylist of `CommandProcessor.validate_code`
(`dangerous_patterns`), in source order. -/
def dangerous_patterns : List String :=
  ["import os", "import subprocess", "import sys", "__import__", "eval(",
   "exec(", "compile(", "open(", "file(", "input(", "raw_input(",
   "execfile(", "reload(", "globals(", "locals(", "__builtins__",
   "setattr(", "delattr(", "__dict__", "__class__", "__bases__",
   "__subclasses__"]

/-- One loop iteration of the denylist scan: a pattern fires when it occurs
in the lowered code, except that `"import sys"` is skipped (`continue`)
when `"sys.path"` does not occur. -/
def patternFires (lowered : List Char) (p : String) : Bool :=
  containsSub lowered p.data &&
    !(p == "import sys" && !containsSub lowered "sys.path".data)

/-- The denylist scan of `validate_code`: the first pattern of
`dangerous_patterns` that fires on the lowered code, if any. -/
def denyScan (lowered : List Char) : Option String :=
  dangerous_patterns.find? (patternFires lowered)

/-- Result dictionary of `CommandProcessor.validate_code`. -/
structure ValidationResult where
  valid : Bool
  error : Option String
deriving DecidableEq, Repr

/-- `CommandProcessor.validate_code`.  `pyParse` is the oracle for the
external CPython compiler (`compile(code, '<string>', 'exec')`): it
returns `some msg` when compilation raises `SyntaxError` with message
`msg`, and `none` when the code is syntactically well-formed. -/
def validate_code (pyParse : String → Option String) (code : String) :
    ValidationResult :=
  if pyAllWhite code.data then ⟨false, some "Empty code"⟩
  else
    match denyScan (pyLower code.data) with
    | some p => ⟨false, some ("Potentially unsafe operation detected: " ++ p)⟩
    | none =>
      match pyParse code with
      | some e => ⟨false, some ("Syntax error: " ++ e)⟩
      | none => ⟨true, none⟩

/-- Result dictionary of `CommandProcessor.execute`.  Dictionary keys that
a branch does not produce are modelled as `none`. -/
structure ExecResult where
  success : Bool
  message : Option String
  error : Option String
  traceback : Option String
  code : String
  executed : Bool
deriving DecidableEq, Repr

/-- `CommandProcessor.execute`.  `runExec` is the oracle for actually
running the generated code (`exec(code, namespace)` plus the canvas
refresh): it returns `some (msg, tb)` when that raises an exception with
formatted message `msg` and traceback `tb`, and `none` on success.  The
second component of the result records whether the execution step was
reached at all (`true` exactly when `exec` was invoked). -/
def execute (pyParse : String → Option String)
    (runExec : String → Option (String × String)) (code : String)
    (auto_execute : Bool) : ExecResult × Bool :=
  if !auto_execute then
    (⟨true, some "Code ready for execution (auto-execute disabled)", none,
      none, code, false⟩, false)
  else
    let validation := validate_code pyParse code
    if validation.valid then
      match runExec code with
      | none =>
        (⟨true, some "Command executed successfully", none, none, code,
          true⟩, true)
      | some e =>
        (⟨false, none, some e.1, some e.2, code, true⟩, true)
    else
      (⟨false, none, validation.error, none, code, false⟩, false)

/-! ## `config.py` — `Config` -/

/-- JSON-serializable values (the contents of `config.json`). -/
inductive Json where
  | null
  | bool (b : Bool)
  | int (n : Int)
  | rat (q : Rat)
  | str (s : String)
  | arr (xs : List Json)
  | obj (fields : List (String × Json))

/-- The configuration dictionary `self.data`: string keys to JSON values,
in insertion order. -/
abbrev CfgData := List (String × Json)

/-- Python `d.get(k)`: value of the first binding of `k`, if any. -/
def getKey : CfgData → String → Option Json
  | [], _ => none
  | (k', v) :: rest, k => if k' = k then some v else getKey rest k

/-- Python `d[k] = v`: update the binding of `k` in place, or append it. -/
def setKey : CfgData → String → Json → CfgData
  | [], k, v => [(k, v)]
  | (k', v') :: rest, k, v =>
    if k' = k then (k, v) :: rest else (k', v') :: setKey rest k v

/-- Python `d.pop(k)` (the removal part): delete the binding of `k`. -/
def delKey : CfgData → String → CfgData
  | [], _ => []
  | (k', v') :: rest, k =>
    if k' = k then delKey rest k else (k', v') :: delKey rest k

/-- `Config.get_default_config`. -/
def default_config : CfgData :=
  [("api_provider", Json.str "openai"),
   ("openai_api_key", Json.str ""),
   ("anthropic_api_key", Json.str ""),
   ("model", Json.str "gpt-4"),
   ("temperature", Json.rat (1 / 10)),
   ("max_tokens", Json.int 1500),
   ("show_code", Json.bool false),
   ("history_size", Json.int 10),
   ("timeout", Json.int 30),
   ("auto_execute", Json.bool true)]

/-- `Config.save_config` is modelled by returning the file contents that
`json.dump` writes; `Config.load_config` reads them back.  The argument is
the current contents of `config.json` (`none` when the file does not
exist); the result is `(self.data, file contents afterwards)`. -/
def Config.load_config (file : Option CfgData) : CfgData × CfgData :=
  match file with
  | some d => (d, d)
  | none => (default_config, default_config)

/-- `Config.set`: store the value and save.  Result:
`(self.data, file contents)` after the call. -/
def Config.set (d : CfgData) (k : String) (v : Json) : CfgData × CfgData :=
  (setKey d k v, setKey d k v)

/-- `Config.get`: read a value, migrating a legacy flat `"api_key"` entry
to `"openai_api_key"` (and saving) on first read.  Result: the returned
value, `self.data` afterwards, and `some f` when `save_config` wrote file
contents `f` (`none` when no save happened). -/
def Config.get (d : CfgData) (k : String) (dflt : Json) :
    Json × CfgData × Option CfgData :=
  if k = "api_key" then
    match getKey d "api_key" with
    | some v =>
      let d2 := setKey (delKey d "api_key") "openai_api_key" v
      ((getKey d2 "openai_api_key").getD dflt, d2, some d2)
    | none => ((getKey d k).getD dflt, d, none)
  else ((getKey d k).getD dflt, d, none)

/-! ## `gpt_handler.py` — `GPTHandler` -/

/-- `SYSTEM_PROMPT` from `config.py` (the fixed system instruction). -/
def SYSTEM_PROMPT : String :=
  "You are a Krita automation assistant. Convert user commands to Krita Python code.\n\n" ++
  "Available Krita API:\n" ++
  "- Krita.instance() - Get Krita application instance\n" ++
  "- Krita.instance().activeDocument() - Get active document\n" ++
  "- Krita.instance().activeWindow() - Get active window\n" ++
  "- Krita.instance().activeWindow().activeView() - Get active view\n" ++
  "- doc.activeNode() - Get active layer/node\n" ++
  "- doc.createNode(name, type) - Create new node. Types: \"paintlayer\", \"grouplayer\", \"filelayer\", \"filterlayer\", \"filllayer\", \"clonelayer\", \"vectorlayer\", \"transparencymask\", \"filtermask\", \"transformmask\", \"selectionmask\"\n" ++
  "- doc.rootNode() - Get root node\n" ++
  "- doc.selection() - Get current selection\n" ++
  "- node.setName(name) - Set node name\n" ++
  "- node.move(x, y) - Move node\n" ++
  "- node.setOpacity(value) - Set opacity (0-255)\n" ++
  "- node.duplicate() - Duplicate node\n" ++
  "- node.remove() - Remove node\n" ++
  "- node.setVisible(bool) - Show/hide node\n" ++
  "- node.scaleNode(QPointF(x, y), width, height, strategy) - Scale node\n" ++
  "- doc.setSelection(Selection) - Set document selection\n" ++
  "- doc.refreshProjection() - Refresh the canvas\n\n" ++
  "Important:\n" ++
  "- Return ONLY executable Python code\n" ++
  "- No explanations or comments\n" ++
  "- Use \x27doc\x27 for activeDocument()\n" ++
  "- Use \x27app\x27 for Krita.instance()\n" ++
  "- Always refresh projection after modifications\n" ++
  "- Import any needed modules at the start\n\n" ++
  "Example response for \"create a new layer called test\":\n" ++
  "app = Krita.instance()\n" ++
  "doc = app.activeDocument()\n" ++
  "if doc:\n" ++
  "    layer = doc.createNode(\"test\", \"paintlayer\")\n" ++
  "    doc.rootNode().addChildNode(layer, None)\n" ++
  "    doc.refreshProjection()\n"

/-- The `active_layer` entry of the context dictionary (the fields
`build_prompt` reads). -/
structure LayerInfo where
  name : String
  type : String
deriving DecidableEq

/-- The `selection` entry of the context dictionary. -/
structure SelInfo where
  x : Int
  y : Int
  width : Int
  height : Int
deriving DecidableEq

/-- The context dictionary built by `GPTHandler.get_context` (restricted
to the fields that `build_prompt` reads; `document_info` is flattened). -/
structure Context where
  has_document : Bool
  doc_name : String
  doc_width : Int
  doc_height : Int
  active_layer : Option LayerInfo
  selection : Option SelInfo
deriving DecidableEq

/-- `GPTHandler.build_prompt`. -/
def build_prompt (command : String) (context : Context) : String :=
  let p := "User command: " ++ command ++ "\n\n"
  let p :=
    if context.has_document then
      let p := p ++ "Document context:\n"
      let p := p ++ "- Document: " ++ context.doc_name ++ "\n"
      let p := p ++ "- Size: " ++ toString context.doc_width ++ "x" ++
        toString context.doc_height ++ "\n"
      let p :=
        match context.active_layer with
        | some l => p ++ "- Active layer: \x27" ++ l.name ++ "\x27 (type: " ++
            l.type ++ ")\n"
        | none => p
      match context.selection with
      | some s => p ++ "- Selection: " ++ toString s.width ++ "x" ++
          toString s.height ++ " at (" ++ toString s.x ++ ", " ++
          toString s.y ++ ")\n"
      | none => p
    else p ++ "Note: No document is currently open.\n"
  p ++ "\nGenerate Python code to execute this command:"

/-- The fence marker of the code-block regular expression. -/
def fence : List Char := [btick, btick, btick]

/-- The optional language tag of the code-block regular expression
(the characters of `"python"`). -/
def pyTag : List Char := ['p', 'y', 't', 'h', 'o', 'n']

/-- Drop `p` from the front of `s` when it is a prefix (the greedy match
of an optional literal group of the regular expression). -/
def stripPrefixIf (p s : List Char) : List Char :=
  if isPrefixL p s then s.drop p.length else s

/-- Lazy capture `(.*?)` up to the next fence: the characters before the
first occurrence of three backticks, or `none` when there is no closing
fence in `s`. -/
def takeUntilFence : List Char → Option (List Char)
  | [] => none
  | c :: t =>
    if isPrefixL fence (c :: t) then some []
    else (takeUntilFence t).map (fun r => c :: r)

/-- The first match of the code-block regular expression
`(three backticks)(?:python)?\n?(.*?)(three backticks)` with `re.DOTALL`:
scan left to right for an opening fence from which a complete match
exists, and return its captured group. -/
def extractFirstBlock : List Char → Option (List Char)
  | [] => none
  | c :: t =>
    if isPrefixL fence (c :: t) then
      match takeUntilFence (stripPrefixIf ['\n'] (stripPrefixIf pyTag (t.drop 2))) with
      | some cap => some cap
      | none => extractFirstBlock t
    else extractFirstBlock t

/-- The explanation markers of the fallback line filter. -/
def marker_list : List (List Char) :=
  ["Note:".data, "Error:".data, "Warning:".data, "INFO:".data]

/-- A line is kept by the fallback filter when its stripped form is
non-empty and does not start with a recognized marker. -/
def keepLine (l : List Char) : Bool :=
  let s := pyStripL l
  !s.isEmpty && !(marker_list.any (fun m => isPrefixL m s))

/-- `GPTHandler.extract_code`. -/
def extract_code (response : List Char) : List Char :=
  match extractFirstBlock response with
  | some cap => pyStripL cap
  | none => joinLines ((splitLines (pyStripL response)).filter keepLine)

/-- A chat message (`{"role": ..., "content": ...}`). -/
structure ChatMsg where
  role : String
  content : String
deriving DecidableEq

/-- The keyword arguments of `client.chat.completions.create` as issued by
`get_code`.  `timeout` is the optional per-request timeout the client
accepts; the call site passes no such argument, which the embedding
records as `none`. -/
structure Request where
  model : String
  messages : List ChatMsg
  temperature : Rat
  max_tokens : Nat
  timeout : Option Nat
deriving DecidableEq

/-- The mutable state of a `GPTHandler` instance. -/
structure GPTHandlerS where
  api_key : String
  model : String
  temperature : Rat
  chat_history : List ChatMsg
deriving DecidableEq

/-- The result dictionary of `GPTHandler.get_code` (absent keys are
`none`). -/
structure GetCodeResult where
  success : Bool
  code : Option String
  raw_response : Option String
  error : Option String
deriving DecidableEq

/-- The message list assembled by `get_code`: the system prompt, the last
ten history entries, then the current user prompt. -/
def build_messages (st : GPTHandlerS) (prompt : String) : List ChatMsg :=
  ⟨"system", SYSTEM_PROMPT⟩ :: (pyListFrom st.chat_history (-10) ++ [⟨"user", prompt⟩])

/-- The completion request issued by `get_code` (model, messages,
temperature, `max_tokens=1500`, and no timeout argument). -/
def request_params (st : GPTHandlerS) (prompt : String) : Request :=
  ⟨st.model, build_messages st prompt, st.temperature, 1500, none⟩

/-- History truncation of `get_code`: keep the last twenty entries when
the history has grown beyond twenty. -/
def capped_history (h : List ChatMsg) : List ChatMsg :=
  if 20 < h.length then pyListFrom h (-20) else h

/-- `GPTHandler.get_code`.

* `cfgTimeout` is the `"timeout"` value of the ambient configuration; the
  source body never reads the configured timeout, which the embedding
  mirrors by not using this parameter.
* `openai_available` is `false` when the `openai` import failed.
* `api` is the oracle for the remote endpoint: `.error e` when the request
  raises an exception rendered as `e`, `.ok r` when it returns a response
  whose first choice has content `r`.
* `krita_ctx` is the context `get_context()` would build, used when the
  `context` argument is `none`.

Result: the returned dictionary, the handler state afterwards, and the
list of requests issued during the call. -/
def get_code (cfgTimeout : Int) (openai_available : Bool)
    (api : Request → Except String String) (st : GPTHandlerS)
    (krita_ctx : Context) (command : String) (context : Option Context) :
    GetCodeResult × GPTHandlerS × List Request :=
  if !openai_available then
    (⟨false, none, none,
      some "OpenAI library not installed. Please install with: pip install openai"⟩,
     st, [])
  else if st.api_key = "" then
    (⟨false, none, none,
      some "No API key configured. Please set your OpenAI API key in settings."⟩,
     st, [])
  else
    let prompt := build_prompt command (context.getD krita_ctx)
    match api (request_params st prompt) with
    | .error e => (⟨false, none, none, some e⟩, st, [request_params st prompt])
    | .ok gpt_response =>
      let code : String := ⟨extract_code gpt_response.data⟩
      let h := capped_history
        (st.chat_history ++ [⟨"user", prompt⟩, ⟨"assistant", code⟩])
      (⟨true, some code, some gpt_response, none⟩,
       { st with chat_history := h }, [request_params st prompt])

/-! ## `kritaGPT.py` — `KritaGPTDocker.add_to_history` -/

/-- `KritaGPTDocker.add_to_history`: append the command, then truncate to
the last `max_history` entries when the length exceeds `max_history`
(`max_history` is `config.get("history_size", 10)`; the slice follows
CPython semantics, so `-0` is the whole list). -/
def add_to_history (max_history : Int) (command_history : List String)
    (command : String) : List String :=
  if max_history < ((command_history ++ [command]).length : Int) then
    pyListFrom (command_history ++ [command]) (-max_history)
  else command_history ++ [command]

/-! ## Concrete oracles and states used by the witnesses -/

/-- A constant syntax oracle: every input compiles. -/
def pyP0 : String → Option String := fun _ => none

/-- A constant execution oracle: generated code always runs cleanly. -/
def runE0 : String → Option (String × String) := fun _ => none

/-- Syntax oracle for the C2 counterexample, modelling the CPython
compiler's behavior on the (syntactically malformed) input
`"eval((("`: compilation raises `SyntaxError`. -/
def pyParseCE : String → Option String :=
  fun code => if code = "eval(((" then some "invalid syntax" else none

/-- Syntax oracle for the C2 witness: `"x +"` fails to compile. -/
def pyParseW : String → Option String :=
  fun code => if code = "x +" then some "invalid syntax" else none

/-- A remote-endpoint oracle that always returns the same completion. -/
def api0 : Request → Except String String := fun _ => Except.ok "doc = 1"

/-- A remote-endpoint oracle that always raises. -/
def apiErr : Request → Except String String := fun _ => Except.error "boom"

/-- A concrete handler state with a configured key and empty history. -/
def st0 : GPTHandlerS := ⟨"sk-test", "gpt-4", 1 / 10, []⟩

/-- A concrete Krita context with no open document. -/
def ctx0 : Context := ⟨false, "", 0, 0, none, none⟩

/-! ## Helper lemmas -/

/-! ### Relating the executable substring test to `List.IsInfix` -/

theorem isPrefixL_iff (n : List Char) : ∀ h : List Char,
    isPrefixL n h = true ↔ ∃ t, n ++ t = h := by
  induction n with
  | nil =>
    intro h
    simp [isPrefixL]
  | cons c cs ih =>
    intro h
    cases h with
    | nil =>
      simp [isPrefixL]
    | cons d ds =>
      simp only [isPrefixL, Bool.and_eq_true, beq_iff_eq, ih ds]
      constructor
      · rintro ⟨rfl, t, rfl⟩
        exact ⟨t, rfl⟩
      · rintro ⟨t, ht⟩
        injection ht with h1 h2
        exact ⟨h1, t, h2⟩

theorem containsSub_eq_true_iff (hay nee : List Char) :
    containsSub hay nee = true ↔ nee <:+: hay := by
  induction hay with
  | nil =>
    simp only [containsSub, List.isEmpty_iff]
    constructor
    · rintro rfl
      exact ⟨[], [], rfl⟩
    · rintro ⟨s, t, ht⟩
      have := List.append_eq_nil.mp ht
      have := List.append_eq_nil.mp this.1
      exact this.2
  | cons c t ih =>
    simp only [containsSub, Bool.or_eq_true, isPrefixL_iff, ih]
    constructor
    · rintro (⟨u, hu⟩ | hin)
      · exact ⟨[], u, by simpa using hu⟩
      · obtain ⟨s, u, hu⟩ := hin
        exact ⟨c :: s, u, by simp [hu]⟩
    · rintro ⟨s, u, hu⟩
      cases s with
      | nil =>
        exact Or.inl ⟨u, by simpa using hu⟩
      | cons a s' =>
        injection hu with h1 h2
        exact Or.inr ⟨s', u, h2⟩

/-- Whitespace characters are fixed points of ASCII lowercasing. -/
theorem toLower_of_pyWhite {c : Char} (h : pyWhite c = true) :
    Char.toLower c = c := by
  simp only [pyWhite, Bool.or_eq_true, beq_iff_eq] at h
  rcases h with ((((rfl | rfl) | rfl) | rfl) | rfl) | rfl <;> decide

theorem getKey_setKey_self (d : CfgData) (k : String) (v : Json) :
    getKey (setKey d k v) k = some v := by
  induction d with
  | nil => simp [setKey, getKey]
  | cons p rest ih =>
    obtain ⟨k', v'⟩ := p
    by_cases h : k' = k
    · simp [setKey, h, getKey]
    · simp [setKey, h, getKey, ih]

theorem getKey_setKey_of_ne (d : CfgData) {k k2 : String} (v : Json)
    (h : k2 ≠ k) : getKey (setKey d k v) k2 = getKey d k2 := by
  have h' : ¬k = k2 := fun hh => h hh.symm
  induction d with
  | nil => simp [setKey, getKey, h']
  | cons p rest ih =>
    obtain ⟨k', v'⟩ := p
    by_cases hk : k' = k
    · subst hk
      simp [setKey, getKey, h']
    · by_cases hk2 : k' = k2
      · subst hk2
        simp [setKey, hk, getKey]
      · simp [setKey, hk, getKey, hk2, ih]

theorem getKey_delKey_self (d : CfgData) (k : String) :
    getKey (delKey d k) k = none := by
  induction d with
  | nil => simp [delKey, getKey]
  | cons p rest ih =>
    obtain ⟨k', v'⟩ := p
    by_cases h : k' = k
    · simp [delKey, h, ih]
    · simp [delKey, h, getKey, ih]

/-! ## Claim theorems -/

/-- Every denylist pattern contains a non-whitespace character. -/
theorem patterns_have_nonwhite :
    ∀ p ∈ dangerous_patterns, p.data.any (fun c => !pyWhite c) = true := by decide

/-- C1: if the lowercased code contains a denylisted substring, then
`validate_code` reports invalid with an error naming a detected pattern —
unless the only denylisted substring is `"import sys"` and `"sys.path"`
is absent, in which case the denylist scan finds nothing. -/
theorem denylisted_code_is_rejected (pyParse : String → Option String)
    (code : String) :
    ((∃ p ∈ dangerous_patterns, p.data <:+: pyLower code.data) →
      ¬((∀ p ∈ dangerous_patterns, p.data <:+: pyLower code.data →
          p = "import sys") ∧
        ¬("sys.path".data <:+: pyLower code.data)) →
      (validate_code pyParse code).valid = false ∧
      ∃ q ∈ dangerous_patterns, q.data <:+: pyLower code.data ∧
        (validate_code pyParse code).error =
          some ("Potentially unsafe operation detected: " ++ q))
    ∧ ((∀ p ∈ dangerous_patterns, p.data <:+: pyLower code.data →
          p = "import sys") →
       ¬("sys.path".data <:+: pyLower code.data) →
       denyScan (pyLower code.data) = none) := by
  constructor
  · rintro ⟨p, hp, hinf⟩ hexc
    have hfire : ∃ q ∈ dangerous_patterns,
        patternFires (pyLower code.data) q = true := by
      by_cases hsp : containsSub (pyLower code.data) "sys.path".data = true
      · refine ⟨p, hp, ?_⟩
        simp [patternFires, (containsSub_eq_true_iff _ _).mpr hinf, hsp]
      · have hno : ¬∀ q ∈ dangerous_patterns,
            q.data <:+: pyLower code.data → q = "import sys" := by
          intro hall
          exact hexc ⟨hall, fun hin =>
            hsp ((containsSub_eq_true_iff _ _).mpr hin)⟩
        push_neg at hno
        obtain ⟨q, hq, hqinf, hqne⟩ := hno
        refine ⟨q, hq, ?_⟩
        have : (q == "import sys") = false := by
          simp [hqne]
        simp [patternFires, (containsSub_eq_true_iff _ _).mpr hqinf, this]
    obtain ⟨q1, hq1, hq1f⟩ := hfire
    have hsome : (denyScan (pyLower code.data)).isSome := by
      rw [denyScan, List.find?_isSome]
      exact ⟨q1, hq1, hq1f⟩
    obtain ⟨q0, hfq⟩ := Option.isSome_iff_exists.mp hsome
    have hq0mem : q0 ∈ dangerous_patterns := List.mem_of_find?_eq_some hfq
    have hq0fire : patternFires (pyLower code.data) q0 = true :=
      List.find?_some hfq
    have hq0inf : q0.data <:+: pyLower code.data := by
      have := (Bool.and_eq_true _ _).mp hq0fire
      exact (containsSub_eq_true_iff _ _).mp this.1
    have hnw : pyAllWhite code.data = false := by
      obtain ⟨c', hc'mem, hc'⟩ :=
        List.any_eq_true.mp (patterns_have_nonwhite q0 hq0mem)
      have hc'L : c' ∈ pyLower code.data := hq0inf.subset hc'mem
      obtain ⟨c, hcmem, hcl⟩ := List.mem_map.mp hc'L
      have hcw : pyWhite c = false := by
        by_contra hcontra
        have hct : pyWhite c = true := by
          cases h' : pyWhite c
          · exact absurd h' hcontra
          · rfl
        have : Char.toLower c = c := toLower_of_pyWhite hct
        rw [this] at hcl
        subst hcl
        simp [hct] at hc'
      cases hall : pyAllWhite code.data
      · rfl
      · have := List.all_eq_true.mp hall c hcmem
        rw [this] at hcw
        exact absurd hcw (by simp)
    refine ⟨?_, q0, hq0mem, hq0inf, ?_⟩ <;>
      simp [validate_code, hnw, hfq]
  · intro hall hnsp
    have hnspc : containsSub (pyLower code.data) "sys.path".data = false := by
      cases h' : containsSub (pyLower code.data) "sys.path".data
      · rfl
      · exact absurd ((containsSub_eq_true_iff _ _).mp h') hnsp
    rw [denyScan, List.find?_eq_none]
    intro p hp
    by_cases hc : containsSub (pyLower code.data) p.data = true
    · have hpi := hall p hp ((containsSub_eq_true_iff _ _).mp hc)
      subst hpi
      simp [patternFires, hc, hnspc]
    · simp [patternFires, hc]

/-- C1 witness: `"eval(x)"` contains the denylisted `"eval("` and is
rejected with a message naming a detected pattern. -/
theorem denylisted_code_is_rejected_witness :
    (validate_code pyP0 "eval(x)").valid = false ∧
    ∃ q ∈ dangerous_patterns, q.data <:+: pyLower "eval(x)".data ∧
      (validate_code pyP0 "eval(x)").error =
        some ("Potentially unsafe operation detected: " ++ q) := by
  have hinf : "eval(".data <:+: pyLower "eval(x)".data :=
    (containsSub_eq_true_iff _ _).mp (by decide)
  exact (denylisted_code_is_rejected pyP0 "eval(x)").1
    ⟨"eval(", by decide, hinf⟩
    (fun hc => by
      have := hc.1 "eval(" (by decide) hinf
      simp at this)

/-- C2 counterexample: `"eval((("` is not syntactically well-formed (the
syntax oracle reports an error on it), yet `validate_code` returns the
denylist message for `"eval("`, which does not carry the
`"Syntax error:"` prefix. -/
theorem syntax_error_claim_counterexample :
    pyParseCE "eval(((" = some "invalid syntax" ∧
    validate_code pyParseCE "eval(((" =
      ⟨false, some "Potentially unsafe operation detected: eval("⟩ ∧
    isPrefixL "Syntax error:".data
      "Potentially unsafe operation detected: eval(".data = false := by
  refine ⟨rfl, by decide, by decide⟩

/-- C2 (amended): for every non-whitespace input that passes the denylist
scan and fails to compile, `validate_code` reports invalid with the
`"Syntax error:"`-prefixed reason. -/
theorem syntax_error_reported (pyParse : String → Option String)
    (code e : String) (h1 : pyAllWhite code.data = false)
    (h2 : denyScan (pyLower code.data) = none) (h3 : pyParse code = some e) :
    validate_code pyParse code = ⟨false, some ("Syntax error: " ++ e)⟩ := by
  simp [validate_code, h1, h2, h3]

/-- C2 witness: the amended statement at the concrete input `"x +"`. -/
theorem syntax_error_reported_witness :
    validate_code pyParseW "x +" =
      ⟨false, some ("Syntax error: " ++ "invalid syntax")⟩ :=
  syntax_error_reported pyParseW "x +" "invalid syntax" (by decide) (by decide)
    rfl

/-- C3: when validation fails, `execute` (with auto-execute on, its
default) refuses execution: the execution oracle is never consulted (the
flag is `false`), and the result carries `success = false`,
`executed = false` and the validation error message. -/
theorem invalid_code_never_executed (pyParse : String → Option String)
    (runExec : String → Option (String × String)) (code : String)
    (h : (validate_code pyParse code).valid = false) :
    execute pyParse runExec code true =
      (⟨false, none, (validate_code pyParse code).error, none, code, false⟩,
       false) := by
  simp [execute, h]

/-- C3 witness: the empty string fails validation and is refused. -/
theorem invalid_code_never_executed_witness :
    execute pyP0 runE0 "" true =
      (⟨false, none, some "Empty code", none, "", false⟩, false) :=
  invalid_code_never_executed pyP0 runE0 "" rfl

/-- C10: with `auto_execute = False`, `execute` returns success with the
ready message and `executed = false`, for any code string, consulting
neither the validator nor the execution oracle. -/
theorem auto_execute_disabled_returns_ready (pyParse : String → Option String)
    (runExec : String → Option (String × String)) (code : String) :
    execute pyParse runExec code false =
      (⟨true, some "Code ready for execution (auto-execute disabled)", none,
        none, code, false⟩, false) := rfl

/-- C4: a value written by `Config.set` is read back unchanged by
`Config.get` on a fresh `Config` that loads the file `set` saved — for
every key and every JSON-serializable value. -/
theorem config_set_save_load_get_roundtrip (d : CfgData) (k : String)
    (v dflt : Json) :
    (Config.get (Config.load_config (some (Config.set d k v).2)).1 k
      dflt).1 = v := by
  show (Config.get (setKey d k v) k dflt).1 = v
  by_cases hk : k = "api_key"
  · subst hk
    simp only [Config.get, if_pos rfl, getKey_setKey_self]
    simp [getKey_setKey_self]
  · simp [Config.get, hk, getKey_setKey_self]

/-- C5: on a configuration whose data still has the legacy flat
`"api_key"` entry, the first `Config.get "api_key"` moves the value to
`"openai_api_key"`, deletes `"api_key"`, saves the new data, and returns
the migrated value; a second `Config.get "api_key"` changes nothing and
saves nothing. -/
theorem legacy_api_key_migrated_once (d : CfgData) (v dflt dflt2 : Json)
    (h : getKey d "api_key" = some v) :
    (Config.get d "api_key" dflt).1 = v ∧
    getKey (Config.get d "api_key" dflt).2.1 "openai_api_key" = some v ∧
    getKey (Config.get d "api_key" dflt).2.1 "api_key" = none ∧
    (Config.get d "api_key" dflt).2.2 = some (Config.get d "api_key" dflt).2.1 ∧
    Config.get (Config.get d "api_key" dflt).2.1 "api_key" dflt2 =
      (dflt2, (Config.get d "api_key" dflt).2.1, none) := by
  have hoa : ("api_key" : String) ≠ "openai_api_key" := by decide
  have hgone :
      getKey (setKey (delKey d "api_key") "openai_api_key" v) "api_key" =
        none := by
    rw [getKey_setKey_of_ne _ _ hoa, getKey_delKey_self]
  refine ⟨?_, ?_, ?_, ?_, ?_⟩
  · simp [Config.get, h, getKey_setKey_self]
  · simp [Config.get, h, getKey_setKey_self]
  · simp [Config.get, h, hgone]
  · simp [Config.get, h]
  · simp [Config.get, h, hgone]

/-- C5 witness: migration on the concrete legacy configuration
`{"api_key": "sk-test"}`. -/
theorem legacy_api_key_migrated_once_witness :
    (Config.get [("api_key", Json.str "sk-test")] "api_key" Json.null).1 =
      Json.str "sk-test" ∧
    getKey (Config.get [("api_key", Json.str "sk-test")] "api_key"
      Json.null).2.1 "api_key" = none :=
  ⟨(legacy_api_key_migrated_once [("api_key", Json.str "sk-test")]
      (Json.str "sk-test") Json.null Json.null rfl).1,
   (legacy_api_key_migrated_once [("api_key", Json.str "sk-test")]
      (Json.str "sk-test") Json.null Json.null rfl).2.2.1⟩

/-- The truncated history never has more than twenty entries. -/
theorem capped_history_length_le (h : List ChatMsg) :
    (capped_history h).length ≤ 20 := by
  unfold capped_history
  split
  · rename_i hgt
    rw [pyListFrom, if_pos (by omega : (-20 : Int) < 0)]
    simp only [List.length_drop]
    omega
  · omega

/-- C6 counterexample: with the configurable bound `history_size = 0`, a
single `add_to_history` leaves one entry in the history (the CPython
slice `[-0:]` keeps the whole list), so the length exceeds the configured
bound. -/
theorem history_bound_claim_counterexample :
    add_to_history 0 [] "x" = ["x"] ∧
    ¬(((add_to_history 0 [] "x").length : Int) ≤ 0) := by decide

/-- C6 (amended): for every configured `history_size` of at least one,
`add_to_history` leaves at most `history_size` commands after any call
(hence after every sequence of additions); and the chat history held by
`get_code` never exceeds its cap of twenty entries after any call that
starts within the cap. -/
theorem history_never_exceeds_bound :
    (∀ (m : Int) (hist : List String) (cmd : String), 1 ≤ m →
      ((add_to_history m hist cmd).length : Int) ≤ m) ∧
    (∀ (t : Int) (avail : Bool) (api : Request → Except String String)
       (st : GPTHandlerS) (kctx : Context) (cmd : String)
       (ctx : Option Context), st.chat_history.length ≤ 20 →
       (get_code t avail api st kctx cmd ctx).2.1.chat_history.length ≤ 20) := by
  constructor
  · intro m hist cmd hm
    unfold add_to_history
    split
    · rename_i hgt
      rw [pyListFrom, if_pos (by omega : -m < 0)]
      simp only [List.length_drop, List.length_append, List.length_cons,
        List.length_nil] at *
      omega
    · rename_i hle
      omega
  · intro t avail api st kctx cmd ctx hlen
    cases avail with
    | false => simpa [get_code] using hlen
    | true =>
      by_cases hk : st.api_key = ""
      · simpa [get_code, hk] using hlen
      · cases hapi : api (request_params st
            (build_prompt cmd (ctx.getD kctx))) with
        | error e => simpa [get_code, hk, hapi] using hlen
        | ok r =>
          simpa [get_code, hk, hapi] using capped_history_length_le _

/-- C6 witness: both bounds at concrete inputs. -/
theorem history_never_exceeds_bound_witness :
    ((add_to_history 10 [] "cmd").length : Int) ≤ 10 ∧
    (get_code 0 true api0 st0 ctx0 "c" none).2.1.chat_history.length ≤ 20 :=
  ⟨history_never_exceeds_bound.1 10 [] "cmd" (by norm_num),
   history_never_exceeds_bound.2 0 true api0 st0 ctx0 "c" none
     (by decide)⟩

/-- C8: the configured timeout is never applied to the outbound request.
Two `get_code` runs identical except for the configured timeout value
coincide completely; every request a run issues carries no timeout
argument and exactly the parameters model, messages, temperature and
`max_tokens = 1500`; and the default configuration does hold a
`"timeout"` entry (of 30), which is thus simply unused. -/
theorem timeout_not_applied_to_request :
    (∀ (t1 t2 : Int) (avail : Bool) (api : Request → Except String String)
       (st : GPTHandlerS) (kctx : Context) (cmd : String)
       (ctx : Option Context),
       get_code t1 avail api st kctx cmd ctx =
         get_code t2 avail api st kctx cmd ctx) ∧
    (∀ (t : Int) (avail : Bool) (api : Request → Except String String)
       (st : GPTHandlerS) (kctx : Context) (cmd : String)
       (ctx : Option Context),
       ∀ r ∈ (get_code t avail api st kctx cmd ctx).2.2,
         r.timeout = none ∧ r.model = st.model ∧
         r.temperature = st.temperature ∧ r.max_tokens = 1500 ∧
         r.messages = build_messages st (build_prompt cmd (ctx.getD kctx))) ∧
    getKey default_config "timeout" = some (Json.int 30) := by
  refine ⟨fun _ _ _ _ _ _ _ _ => rfl, ?_, rfl⟩
  intro t avail api st kctx cmd ctx r hr
  cases avail with
  | false => simp [get_code] at hr
  | true =>
    by_cases hk : st.api_key = ""
    · simp [get_code, hk] at hr
    · cases hapi : api (request_params st (build_prompt cmd (ctx.getD kctx))) with
      | error e =>
        simp [get_code, hk, hapi] at hr
        subst hr
        exact ⟨rfl, rfl, rfl, rfl, rfl⟩
      | ok resp =>
        simp [get_code, hk, hapi] at hr
        subst hr
        exact ⟨rfl, rfl, rfl, rfl, rfl⟩

/-- C8 witness: two runs differing only in the configured timeout value
produce identical outcomes, and the default configuration carries the
(unused) timeout of 30. -/
theorem timeout_not_applied_to_request_witness :
    get_code 5 true api0 st0 ctx0 "c" none =
      get_code 99 true api0 st0 ctx0 "c" none ∧
    getKey default_config "timeout" = some (Json.int 30) :=
  ⟨timeout_not_applied_to_request.1 5 99 true api0 st0 ctx0 "c" none,
   timeout_not_applied_to_request.2.2⟩

/-- C9: `get_code` never propagates an exception.  At most one request is
issued; when the library is unavailable or the key is empty, a tagged
failure is returned with no request issued; when the single request
attempt raises, the exception text is returned as a tagged failure with
exactly one request issued and the handler state untouched. -/
theorem get_code_failures_tagged_single_attempt (t : Int) (avail : Bool)
    (api : Request → Except String String) (st : GPTHandlerS)
    (kctx : Context) (cmd : String) (ctx : Option Context) :
    ((get_code t avail api st kctx cmd ctx).2.2.length ≤ 1) ∧
    (avail = false →
      get_code t avail api st kctx cmd ctx =
        (⟨false, none, none,
          some "OpenAI library not installed. Please install with: pip install openai"⟩,
         st, [])) ∧
    (avail = true → st.api_key = "" →
      get_code t avail api st kctx cmd ctx =
        (⟨false, none, none,
          some "No API key configured. Please set your OpenAI API key in settings."⟩,
         st, [])) ∧
    (∀ e, avail = true → st.api_key ≠ "" →
      api (request_params st (build_prompt cmd (ctx.getD kctx))) =
        Except.error e →
      get_code t avail api st kctx cmd ctx =
        (⟨false, none, none, some e⟩, st,
         [request_params st (build_prompt cmd (ctx.getD kctx))])) := by
  refine ⟨?_, ?_, ?_, ?_⟩
  · cases avail with
    | false => simp [get_code]
    | true =>
      by_cases hk : st.api_key = ""
      · simp [get_code, hk]
      · cases hapi : api (request_params st (build_prompt cmd (ctx.getD kctx))) with
        | error e => simp [get_code, hk, hapi]
        | ok resp => simp [get_code, hk, hapi]
  · rintro rfl
    simp [get_code]
  · rintro rfl hk
    simp [get_code, hk]
  · rintro e rfl hk hapi
    simp [get_code, hk, hapi]

/-- C9 witness: the unavailable-library case and a raising request at
concrete inputs. -/
theorem get_code_failures_tagged_single_attempt_witness :
    get_code 0 false api0 st0 ctx0 "c" none =
      (⟨false, none, none,
        some "OpenAI library not installed. Please install with: pip install openai"⟩,
       st0, []) ∧
    get_code 0 true apiErr st0 ctx0 "c" none =
      (⟨false, none, none, some "boom"⟩, st0,
       [request_params st0 (build_prompt "c" ((none : Option Context).getD ctx0))]) :=
  ⟨(get_code_failures_tagged_single_attempt 0 false api0 st0 ctx0 "c"
      none).2.1 rfl,
   (get_code_failures_tagged_single_attempt 0 true apiErr st0 ctx0 "c"
      none).2.2.2 "boom" rfl (by decide) rfl⟩

/-! ### Lemmas about the fenced-block matcher -/

/-- Scanning skips any backtick-free text before the first fence. -/
theorem extractFirstBlock_append_of_no_btick (pre rest : List Char)
    (h : btick ∉ pre) :
    extractFirstBlock (pre ++ rest) = extractFirstBlock rest := by
  induction pre with
  | nil => rfl
  | cons c pre' ih =>
    have hc : (btick == c) = false := by
      simp only [List.mem_cons, not_or] at h
      simp [beq_eq_false_iff_ne, h.1]
    have h' : btick ∉ pre' := by
      simp only [List.mem_cons, not_or] at h
      exact h.2
    simp [extractFirstBlock, fence, isPrefixL, hc, ih h']

/-- A backtick-free string holds no fenced block. -/
theorem extractFirstBlock_of_no_btick (r : List Char) (h : btick ∉ r) :
    extractFirstBlock r = none := by
  have := extractFirstBlock_append_of_no_btick r [] h
  simpa using this

/-- The fence marker is a prefix of itself followed by anything. -/
theorem isPrefixL_self_append (p x : List Char) :
    isPrefixL p (p ++ x) = true :=
  (isPrefixL_iff p (p ++ x)).mpr ⟨x, rfl⟩

/-- The lazy capture stops exactly at the closing fence when the body is
backtick-free. -/
theorem takeUntilFence_append (body rest : List Char) (h : btick ∉ body) :
    takeUntilFence (body ++ (fence ++ rest)) = some body := by
  induction body with
  | nil =>
    show takeUntilFence (btick :: btick :: btick :: rest) = some []
    simp [takeUntilFence, isPrefixL_self_append]
    rfl
  | cons c b ih =>
    have hc : (btick == c) = false := by
      simp only [List.mem_cons, not_or] at h
      simp [beq_eq_false_iff_ne, h.1]
    have h' : btick ∉ b := by
      simp only [List.mem_cons, not_or] at h
      exact h.2
    have ih' := ih h'
    simp only [fence, List.cons_append, List.nil_append] at ih'
    simp [takeUntilFence, fence, isPrefixL, hc, ih']

/-- On input made of backtick-free text around a fenced block, the
matcher captures exactly the block body. -/
theorem extract_code_fenced_block (pre body post : List Char)
    (hpre : btick ∉ pre) (hbody : btick ∉ body) :
    extract_code (pre ++ (fence ++ '\n' :: (body ++ (fence ++ post)))) =
      pyStripL body := by
  have hpn : (('p' == '\n') : Bool) = false := by decide
  have hfb : extractFirstBlock (fence ++ '\n' :: (body ++ (fence ++ post))) =
      some body := by
    show extractFirstBlock
        (btick :: btick :: btick :: '\n' :: (body ++ (fence ++ post))) =
      some body
    have htf := takeUntilFence_append body post hbody
    simp only [fence, List.cons_append, List.nil_append] at htf
    rw [extractFirstBlock]
    simp [fence, isPrefixL, stripPrefixIf, pyTag, hpn, htf]
  unfold extract_code
  rw [extractFirstBlock_append_of_no_btick _ _ hpre, hfb]

/-- C7 counterexample: `extract_code` does not return fenced-block
contents verbatim — it strips surrounding whitespace.  On a block whose
only content line is indented, the captured contents keep the indent and
the trailing newline, but the function returns the stripped text.  On a
fence-free response with a leading-whitespace line, the response's single
line survives the filter unchanged, yet the function returns it
trimmed. -/
theorem extract_code_verbatim_counterexample :
    extract_code "```\n    indented\n```".data = "indented".data ∧
    extractFirstBlock "```\n    indented\n```".data =
      some "    indented\n".data ∧
    "indented".data ≠ "    indented".data ∧
    "indented".data ≠ "    indented\n".data ∧
    extract_code "  a".data = "a".data ∧
    splitLines "  a".data = ["  a".data] ∧
    keepLine "  a".data = true ∧
    "a".data ≠ "  a".data := by decide

/-- C7 (amended): when the response contains a fenced block (backtick-free
text before the first fence, backtick-free body), `extract_code` returns
the block body with leading and trailing whitespace stripped (so the body
verbatim whenever it neither starts nor ends with whitespace); when the
response contains no fence and carries no surrounding whitespace, it
returns the response's lines joined back together with blank lines and
recognized-marker lines excluded. -/
theorem extract_code_amended :
    (∀ pre body post : List Char, btick ∉ pre → btick ∉ body →
      extract_code (pre ++ (fence ++ '\n' :: (body ++ (fence ++ post)))) =
        pyStripL body) ∧
    (∀ r : List Char, btick ∉ r → pyStripL r = r →
      extract_code r = joinLines ((splitLines r).filter keepLine)) := by
  refine ⟨extract_code_fenced_block, ?_⟩
  intro r h hs
  unfold extract_code
  rw [extractFirstBlock_of_no_btick r h, hs]

/-- C7 witness: both halves of the amended statement at concrete
responses. -/
theorem extract_code_amended_witness :
    extract_code ("see ".data ++
        (fence ++ '\n' :: ("doc = 1".data ++ (fence ++ " tail".data)))) =
      pyStripL "doc = 1".data ∧
    extract_code "Note: x\ncode".data =
      joinLines ((splitLines "Note: x\ncode".data).filter keepLine) :=
  ⟨extract_code_amended.1 "see ".data "doc = 1".data " tail".data
      (by decide) (by decide),
   extract_code_amended.2 "Note: x\ncode".data (by decide) (by decide)⟩
